import Mathlib

/-!
Shallow embedding of the `lk` CLI app-bootstrap orchestration
(`cmd/lk/app.go`) and the agent-dispatch CRUD commands.

External collaborators (git process, remote catalog, task executor,
interactive forms, dispatch service) are modelled by oracle records that
supply their observable results; the local filesystem is modelled as the
set of existing paths (each path a list of components).
-/

namespace LKCli

/-- A filesystem path, as a list of components. -/
abbrev Path := List String

/-- The local filesystem: the set (as a list) of existing paths. -/
abbrev FS := List Path

namespace FS

/-- Model of `os.RemoveAll`: delete the path and everything below it. -/
def removeAll (fs : FS) (p : Path) : FS :=
  fs.filter (fun q => !(p.isPrefixOf q))

/-- Model of `os.Rename` as used for relocation: every path at or below `src`
is re-rooted at `dst`; everything else is untouched. -/
def rename (fs : FS) (src dst : Path) : FS :=
  fs.map (fun q => if src.isPrefixOf q then dst ++ q.drop src.length else q)

end FS

theorem mem_removeAll {fs : FS} {p q : Path} :
    q ∈ fs.removeAll p ↔ q ∈ fs ∧ p.isPrefixOf q = false := by
  simp [FS.removeAll, List.mem_filter]

theorem mem_rename {fs : FS} {src dst q' : Path} :
    q' ∈ fs.rename src dst ↔
      ∃ q ∈ fs, q' = (if src.isPrefixOf q then dst ++ q.drop src.length else q) := by
  simp only [FS.rename, List.mem_map]
  constructor
  · rintro ⟨q, hq, rfl⟩; exact ⟨q, hq, rfl⟩
  · rintro ⟨q, hq, rfl⟩; exact ⟨q, hq, rfl⟩

theorem isPrefixOf_single {a : String} {q : Path} :
    [a].isPrefixOf q = true ↔ ∃ rest, q = a :: rest := by
  cases q with
  | nil => simp [List.isPrefixOf]
  | cons b t =>
    simp [List.isPrefixOf]
    exact eq_comm

theorem isPrefixOf_pair {a b : String} {q : Path} :
    [a, b].isPrefixOf q = true ↔ ∃ rest, q = a :: b :: rest := by
  cases q with
  | nil => simp [List.isPrefixOf]
  | cons x t =>
    cases t with
    | nil => simp [List.isPrefixOf]
    | cons y u =>
      simp [List.isPrefixOf, and_assoc]
      exact and_congr eq_comm eq_comm

/-- A template, as resolved from the catalog or a sandbox. -/
structure Template where
  name : String
  url : String
deriving DecidableEq

/-- The active project credential context (`config.ProjectConfig`). -/
structure ProjectConfig where
  name : String
  apiKey : String
  apiSecret : String
  url : String
deriving DecidableEq

/-! ## Staged cloner (`cloneTemplate`) -/

/-- Modelled from the spec: `useTempPath` (not part of the visible
source) allocates a staging path "derived from the final name but
distinguishable, verified unused".  We derive it by appending a fixed
suffix, which makes it distinct from the final name by construction. -/
def stagingName (appName : String) : String := appName ++ ".tmp-clone"

/-- Outcomes of the external collaborators consulted during one
`cloneTemplate` call. -/
structure CloneOracle where
  /-- whether the external `git clone` created the staging directory -/
  createsDir : Bool
  /-- whether the external `git clone` left `.git` metadata in the staging directory -/
  createsGit : Bool
  /-- the `cmdErr` value: the error reported by the external `git clone` process -/
  cloneErr : Option String
  /-- the combined output captured from the clone process -/
  cloneOut : String
  /-- the error returned by `spinner.Run` itself -/
  spinnerErr : Option String
deriving DecidableEq

/-- Observable events of one `cloneTemplate` call, in order. -/
inductive CloneEvent
  | cloneExec
  | gitRemoved
  | outPrinted
  | relocated
deriving DecidableEq

structure CloneResult where
  err : Option String
  fs : FS
  events : List CloneEvent

/-- Filesystem after the external `git clone` possibly created the
staging directory. -/
def cloneStage1 (o : CloneOracle) (fs0 : FS) (t : String) : FS :=
  if o.createsDir then fs0 ++ [[t]] else fs0

/-- Filesystem after the external `git clone` possibly left `.git`
metadata in the staging directory. -/
def cloneStage2 (o : CloneOracle) (fs0 : FS) (t : String) : FS :=
  if o.createsGit then cloneStage1 o fs0 t ++ [[t, ".git"]] else cloneStage1 o fs0 t

/-- Filesystem after the unconditional `os.RemoveAll(path.Join(tempName, ".git"))`
that runs inside the spinner action, right after the clone, before any
error inspection. -/
def cloneStage3 (o : CloneOracle) (fs0 : FS) (t : String) : FS :=
  (cloneStage2 o fs0 t).removeAll [t, ".git"]

/-- The body of `cloneTemplate` before the deferred cleanup runs:
spinner action (external clone into the staging path, then unconditional
`os.RemoveAll` of the staged `.git`), output surfacing, error check,
and relocation (modelled from the spec: rename the staging path to the
final name, failing if the final directory already exists). -/
def cloneTemplateBody (o : CloneOracle) (verbose : Bool) (fs0 : FS) (appName : String) :
    Option String × FS × List CloneEvent :=
  let tempName := stagingName appName
  let fs3 := cloneStage3 o fs0 tempName
  let ev1 := [CloneEvent.cloneExec, CloneEvent.gitRemoved]
  match o.spinnerErr with
  | some e => (some e, fs3, ev1)
  | none =>
    let printed := o.cloneOut.length > 0 && (o.cloneErr.isSome || verbose)
    let ev2 := if printed then ev1 ++ [CloneEvent.outPrinted] else ev1
    match o.cloneErr with
    | some e => (some e, fs3, ev2)
    | none =>
      if [appName] ∈ fs3 then
        (some "destination already exists", fs3, ev2)
      else
        (none, fs3.rename [tempName] [appName], ev2 ++ [CloneEvent.relocated])

/-- Model of `cloneTemplate`: runs the body, then the deferred cleanup of the
staging path, which runs on every exit path. -/
def cloneTemplate (o : CloneOracle) (verbose : Bool) (fs0 : FS) (url appName : String) :
    CloneResult :=
  let b := cloneTemplateBody o verbose fs0 appName
  ⟨b.1, b.2.1.removeAll [stagingName appName], b.2.2⟩

theorem stagingName_ne (appName : String) : stagingName appName ≠ appName := by
  intro h
  have hl : (stagingName appName).length = appName.length := congrArg String.length h
  simp [stagingName, String.length_append] at hl
  exact absurd hl (by decide)

theorem mem_cloneStage3_sub {o : CloneOracle} {fs0 : FS} {t : String} {q : Path}
    (h : q ∈ cloneStage3 o fs0 t) :
    (q ∈ fs0 ∨ q = [t]) ∧ [t, ".git"].isPrefixOf q = false := by
  obtain ⟨h2, hpref⟩ := mem_removeAll.mp h
  refine ⟨?_, hpref⟩
  have h1 : q ∈ cloneStage1 o fs0 t ∨ q = [t, ".git"] := by
    unfold cloneStage2 at h2
    cases hg : o.createsGit <;> simp [hg] at h2 <;> tauto
  rcases h1 with h1 | rfl
  · unfold cloneStage1 at h1
    cases hd : o.createsDir <;> simp [hd] at h1 <;> tauto
  · exact absurd hpref (by simp [isPrefixOf_pair])

theorem staging_mem_cloneStage3 {o : CloneOracle} {fs0 : FS} {t : String}
    (hd : o.createsDir = true) : [t] ∈ cloneStage3 o fs0 t := by
  have h1 : [t] ∈ cloneStage1 o fs0 t := by simp [cloneStage1, hd]
  have h2 : [t] ∈ cloneStage2 o fs0 t := by
    unfold cloneStage2; cases hg : o.createsGit <;> simp [hg, h1]
  refine mem_removeAll.mpr ⟨h2, ?_⟩
  simp [List.isPrefixOf]

/-- When the external clone, the spinner and the relocation all go well,
`cloneTemplate` succeeds and the final application directory exists. -/
theorem cloneTemplate_success (o : CloneOracle) (verbose : Bool) (fs0 : FS)
    (url appName : String)
    (hs : o.spinnerErr = none) (hc : o.cloneErr = none) (hd : o.createsDir = true)
    (hfresh : ∀ q ∈ fs0, [appName].isPrefixOf q = false) :
    (cloneTemplate o verbose fs0 url appName).err = none ∧
    [appName] ∈ (cloneTemplate o verbose fs0 url appName).fs := by
  have hex : [appName] ∉ cloneStage3 o fs0 (stagingName appName) := by
    intro hmem
    rcases (mem_cloneStage3_sub hmem).1 with h | h
    · have := hfresh _ h
      simp [List.isPrefixOf] at this
    · exact stagingName_ne appName (by injection h with h1 _; exact h1.symm)
  constructor
  · simp [cloneTemplate, cloneTemplateBody, hs, hc, hex]
  · simp only [cloneTemplate, cloneTemplateBody, hs, hc, if_neg hex]
    refine mem_removeAll.mpr ⟨?_, ?_⟩
    · refine mem_rename.mpr ⟨[stagingName appName], staging_mem_cloneStage3 hd, ?_⟩
      simp [List.isPrefixOf]
    · have := stagingName_ne appName
      simp [List.isPrefixOf]
      intro h
      exact absurd h this

/-- C1: every invocation of the staged clone operation allocates a staging
path distinct from the final application directory name, and the registered
cleanup runs on every exit path, so the staging path does not exist in the
filesystem after the call returns, whether the clone succeeded or failed. -/
theorem cloneTemplate_staging_distinct_and_cleaned (o : CloneOracle) (verbose : Bool)
    (fs0 : FS) (url appName : String) :
    stagingName appName ≠ appName ∧
    ∀ q ∈ (cloneTemplate o verbose fs0 url appName).fs,
      [stagingName appName].isPrefixOf q = false := by
  refine ⟨stagingName_ne appName, ?_⟩
  intro q hq
  simp only [cloneTemplate] at hq
  exact (mem_removeAll.mp hq).2

/-- Witness for C1 at a concrete input: a successful clone of `myapp`
over a filesystem containing `other`. -/
theorem cloneTemplate_staging_distinct_and_cleaned_witness :
    ["other"] ∈ (cloneTemplate ⟨true, true, none, "", none⟩ false [["other"]] "u" "myapp").fs ∧
    [stagingName "myapp"].isPrefixOf ["other"] = false :=
  ⟨by decide,
   (cloneTemplate_staging_distinct_and_cleaned ⟨true, true, none, "", none⟩ false
      [["other"]] "u" "myapp").2 ["other"] (by decide)⟩

/-- C2: the staged `.git` metadata is removed unconditionally (the removal
event occurs on every run, even when the external clone reported an error);
on clone failure that error is surfaced and no relocation takes place; and
a successful clone into a fresh application directory leaves no
version-control metadata directory under the final directory. -/
theorem cloneTemplate_vcs_metadata (o : CloneOracle) (verbose : Bool)
    (fs0 : FS) (url appName : String) :
    CloneEvent.gitRemoved ∈ (cloneTemplate o verbose fs0 url appName).events ∧
    (∀ e, o.spinnerErr = none → o.cloneErr = some e →
      (cloneTemplate o verbose fs0 url appName).err = some e ∧
      CloneEvent.relocated ∉ (cloneTemplate o verbose fs0 url appName).events) ∧
    ((cloneTemplate o verbose fs0 url appName).err = none →
      (∀ q ∈ fs0, [appName].isPrefixOf q = false) →
      ∀ q ∈ (cloneTemplate o verbose fs0 url appName).fs,
        [appName, ".git"].isPrefixOf q = false) := by
  refine ⟨?_, ?_, ?_⟩
  · simp only [cloneTemplate, cloneTemplateBody]
    cases o.spinnerErr <;> cases o.cloneErr <;> (repeat' split) <;> simp_all
  · intro e hs hc
    simp only [cloneTemplate, cloneTemplateBody, hs, hc]
    refine ⟨by simp, ?_⟩
    (repeat' split) <;> simp_all
  · intro herr hfresh q hq
    cases hs : o.spinnerErr with
    | some e => simp [cloneTemplate, cloneTemplateBody, hs] at herr
    | none =>
      cases hc : o.cloneErr with
      | some e => simp [cloneTemplate, cloneTemplateBody, hs, hc] at herr
      | none =>
        by_cases hex : [appName] ∈ cloneStage3 o fs0 (stagingName appName)
        · simp [cloneTemplate, cloneTemplateBody, hs, hc, hex] at herr
        · simp only [cloneTemplate, cloneTemplateBody, hs, hc, if_neg hex] at hq
          obtain ⟨hq1, _⟩ := mem_removeAll.mp hq
          obtain ⟨q0, hq0, hform⟩ := mem_rename.mp hq1
          by_contra hbad
          rw [Bool.not_eq_false] at hbad
          obtain ⟨rest2, hq2⟩ := isPrefixOf_pair.mp hbad
          by_cases hpre : [stagingName appName].isPrefixOf q0 = true
          · obtain ⟨rest, hq0eq⟩ := isPrefixOf_single.mp hpre
            rw [if_pos hpre, hq0eq] at hform
            rw [hform] at hq2
            simp only [List.length_cons, List.length_nil, List.drop_succ_cons,
              List.drop_zero, List.cons_append, List.nil_append, List.cons.injEq] at hq2
            have hgit : [stagingName appName, ".git"].isPrefixOf q0 = true :=
              isPrefixOf_pair.mpr ⟨rest2, by rw [hq0eq, hq2.2]⟩
            have hfalse := (mem_cloneStage3_sub hq0).2
            rw [hgit] at hfalse
            simp at hfalse
          · rw [if_neg hpre] at hform
            subst hform
            rcases (mem_cloneStage3_sub hq0).1 with h0 | h0
            · have htrue : [appName].isPrefixOf q = true :=
                isPrefixOf_single.mpr ⟨".git" :: rest2, hq2⟩
              rw [hfresh _ h0] at htrue
              simp at htrue
            · rw [h0] at hq2
              simp at hq2

/-- Witness for C2: a failed clone surfaces `boom` without relocating, and a
successful clone of `myapp` leaves no `.git` under the final directory. -/
theorem cloneTemplate_vcs_metadata_witness :
    ((cloneTemplate ⟨true, true, some "boom", "out", none⟩ false [] "u" "myapp").err = some "boom" ∧
      CloneEvent.relocated ∉
        (cloneTemplate ⟨true, true, some "boom", "out", none⟩ false [] "u" "myapp").events) ∧
    ["myapp", ".git"].isPrefixOf ["myapp"] = false :=
  ⟨(cloneTemplate_vcs_metadata ⟨true, true, some "boom", "out", none⟩ false [] "u" "myapp").2.1
      "boom" rfl rfl,
   (cloneTemplate_vcs_metadata ⟨true, true, none, "", none⟩ false [["other"]] "u" "myapp").2.2
      (by decide) (by decide) ["myapp"] (by decide)⟩

/-! ## Task runner (`doPostCreate`, `doInstall`) -/

/-- Result of a task-runner invocation.  `crash` marks the run-time fault of
invoking a nil task function (Go panics there). -/
inductive Outcome
  | ok
  | err (e : String)
  | crash
deriving DecidableEq

/-- Collaborator outcomes for one task-runner invocation:
`bootstrap.ParseTaskfile`, `bootstrap.NewTask` (which returns a pair of an
executable unit and an error), and the spinner.  `newTaskUnit = none` models a
nil executable unit — in particular the case where the task file contains no
matching task; `newTaskUnit = some r` is a unit whose execution returns `r`. -/
structure TaskOracle where
  parseErr : Option String
  newTaskErr : Option String
  newTaskUnit : Option (Option String)
  spinnerErr : Option String
deriving DecidableEq

/-- Model of `doPostCreate`: parse failure is returned; a nil task or a `NewTask`
error yields nil (silent success); otherwise the task runs under the spinner
and its error is returned. -/
def doPostCreate (o : TaskOracle) : Outcome :=
  match o.parseErr with
  | some e => .err e
  | none =>
    match o.newTaskUnit, o.newTaskErr with
    | none, _ => .ok
    | some _, some _ => .ok
    | some run, none =>
      match o.spinnerErr with
      | some e => .err e
      | none =>
        match run with
        | some e => .err e
        | none => .ok

/-- Model of `doInstall`: parse failure and `NewTask` errors are returned; a nil task
with no error is invoked anyway (a run-time fault); otherwise the task runs
under the spinner and its error is returned. -/
def doInstall (o : TaskOracle) : Outcome :=
  match o.parseErr with
  | some e => .err e
  | none =>
    match o.newTaskErr with
    | some e => .err e
    | none =>
      match o.newTaskUnit with
      | none => .crash
      | some run =>
        match o.spinnerErr with
        | some e => .err e
        | none =>
          match run with
          | some e => .err e
          | none => .ok

/-- C6: `doPostCreate` fails with the parse error when the task file cannot
be located or parsed, and silently succeeds when the file parses but no
matching post-create task exists (`NewTask` yields a nil executable unit). -/
theorem doPostCreate_parse_error_and_missing_task (e : String)
    (u : Option (Option String)) (ne se se' : Option String) :
    doPostCreate ⟨some e, ne, u, se⟩ = .err e ∧
    doPostCreate ⟨none, ne, none, se'⟩ = .ok :=
  ⟨rfl, rfl⟩

/-- C10: whenever `NewTask` reports an error or a nil executable unit —
whatever the cause — `doPostCreate` returns success, while `doInstall`
propagates a `NewTask` error to its caller. -/
theorem doPostCreate_swallows_newTask_doInstall_propagates (e : String)
    (u : Option (Option String)) (ne se : Option String) :
    doPostCreate ⟨none, some e, u, se⟩ = .ok ∧
    doPostCreate ⟨none, ne, none, se⟩ = .ok ∧
    doInstall ⟨none, some e, u, se⟩ = .err e := by
  refine ⟨?_, rfl, rfl⟩
  cases u <;> rfl

/-! ## Environment reconciler (`instantiateEnv`) -/

/-- A Go `map[string]string`, as a finite function. -/
def emptyEnv : String → Option String := fun _ => none

/-- Go map assignment `m[k] = v`. -/
def envSet (m : String → Option String) (k v : String) : String → Option String :=
  fun k' => if k' = k then some v else m k'

/-- The base environment literal built by `instantiateEnv` from the active
project context. -/
def baseEnv (p : ProjectConfig) : String → Option String :=
  envSet (envSet (envSet emptyEnv "LIVEKIT_API_KEY" p.apiKey)
    "LIVEKIT_API_SECRET" p.apiSecret) "LIVEKIT_URL" p.url

/-- The environment set `instantiateEnv` hands to
`bootstrap.InstantiateDotEnv`: the base entries, with the optional `addlEnv`
entries assigned over them in turn (assignment overrides on conflict). -/
def instantiateEnvMap (p : ProjectConfig) (addlEnv : Option (List (String × String))) :
    String → Option String :=
  match addlEnv with
  | none => baseEnv p
  | some extra => extra.foldl (fun m kv => envSet m kv.1 kv.2) (baseEnv p)

theorem foldl_envSet_not_mem (e : List (String × String)) (m : String → Option String)
    (k : String) (hk : k ∉ e.map Prod.fst) :
    (e.foldl (fun m kv => envSet m kv.1 kv.2) m) k = m k := by
  induction e generalizing m with
  | nil => rfl
  | cons a t ih =>
    simp only [List.map_cons, List.mem_cons, not_or] at hk
    rw [List.foldl_cons, ih _ (by simpa using hk.2)]
    simp [envSet, hk.1]

theorem foldl_envSet_mem (e : List (String × String)) (m : String → Option String)
    (k v : String) (hnd : (e.map Prod.fst).Nodup) (hkv : (k, v) ∈ e) :
    (e.foldl (fun m kv => envSet m kv.1 kv.2) m) k = some v := by
  induction e generalizing m with
  | nil => cases hkv
  | cons a t ih =>
    rw [List.foldl_cons]
    rw [List.map_cons] at hnd
    have hnd' := List.nodup_cons.mp hnd
    rcases List.mem_cons.mp hkv with rfl | hmem
    · rw [foldl_envSet_not_mem t _ k (by simpa using hnd'.1)]
      simp [envSet]
    · exact ih _ hnd'.2 hmem

theorem foldl_envSet_isSome (e : List (String × String)) (m : String → Option String)
    (k : String) :
    ((e.foldl (fun m kv => envSet m kv.1 kv.2) m) k).isSome ↔
      k ∈ e.map Prod.fst ∨ (m k).isSome := by
  induction e generalizing m with
  | nil => simp
  | cons a t ih =>
    rw [List.foldl_cons, ih]
    by_cases h : k = a.1 <;> simp [envSet, h]

theorem baseEnv_isSome (p : ProjectConfig) (k : String) :
    (baseEnv p k).isSome ↔
      k = "LIVEKIT_API_KEY" ∨ k = "LIVEKIT_API_SECRET" ∨ k = "LIVEKIT_URL" := by
  unfold baseEnv envSet emptyEnv
  by_cases h1 : k = "LIVEKIT_URL" <;> by_cases h2 : k = "LIVEKIT_API_SECRET" <;>
    by_cases h3 : k = "LIVEKIT_API_KEY" <;> simp [h1, h2, h3]

/-- C5: the environment handed to the dotenv collaborator consists of exactly
the three required entries seeded from the project context plus the entries
of the extra set, and an extra entry overrides the base entry at the same
key. -/
theorem instantiateEnv_merged_env (p : ProjectConfig) (e : List (String × String))
    (k : String) (hnd : (e.map Prod.fst).Nodup) :
    (baseEnv p "LIVEKIT_URL" = some p.url ∧
      baseEnv p "LIVEKIT_API_KEY" = some p.apiKey ∧
      baseEnv p "LIVEKIT_API_SECRET" = some p.apiSecret) ∧
    (∀ v, (k, v) ∈ e → instantiateEnvMap p (some e) k = some v) ∧
    (k ∉ e.map Prod.fst → instantiateEnvMap p (some e) k = baseEnv p k) ∧
    ((instantiateEnvMap p (some e) k).isSome ↔
      k ∈ e.map Prod.fst ∨
        k = "LIVEKIT_API_KEY" ∨ k = "LIVEKIT_API_SECRET" ∨ k = "LIVEKIT_URL") := by
  refine ⟨⟨by simp [baseEnv, envSet], by simp [baseEnv, envSet], by simp [baseEnv, envSet]⟩,
    ?_, ?_, ?_⟩
  · intro v hv
    exact foldl_envSet_mem e (baseEnv p) k v hnd hv
  · intro hk
    exact foldl_envSet_not_mem e (baseEnv p) k hk
  · rw [show instantiateEnvMap p (some e) = e.foldl (fun m kv => envSet m kv.1 kv.2) (baseEnv p) from rfl,
      foldl_envSet_isSome, baseEnv_isSome]

/-- Witness for C5 at the concrete extra set used by `setupTemplate`
(`LIVEKIT_SANDBOX_ID`), plus an override of the URL. -/
theorem instantiateEnv_merged_env_witness :
    instantiateEnvMap ⟨"p", "key", "secret", "wss://x"⟩
      (some [("LIVEKIT_SANDBOX_ID", "sb"), ("LIVEKIT_URL", "wss://y")]) "LIVEKIT_URL"
      = some "wss://y" :=
  (instantiateEnv_merged_env ⟨"p", "key", "secret", "wss://x"⟩
      [("LIVEKIT_SANDBOX_ID", "sb"), ("LIVEKIT_URL", "wss://y")] "LIVEKIT_URL"
      (by decide)).2.1 "wss://y" (by decide)

/-! ## Bootstrap driver (`setupTemplate`) -/

/-- The flag/argument context of one `app create` invocation. -/
structure SetupArgs where
  templateName : String
  templateURL : String
  sandboxID : String
  /-- the value of `cmd.Args().First()` -/
  appArg : String
  install : Bool
  verbose : Bool
deriving DecidableEq

/-- Observable events of one `setupTemplate` invocation, in order. -/
inductive SEvent
  | tokenRequested
  | sandboxFetched
  | catalogFetched
  | formShown
  | cloneStarted
  | envInstantiated
  | installStarted
  | postCreateStarted
deriving DecidableEq

/-- Collaborator outcomes for one `setupTemplate` invocation. -/
structure SetupOracle where
  /-- result of `requireToken` -/
  tokenRes : Except String Unit
  /-- result of `bootstrap.FetchSandboxDetails` (its `ChildTemplates` field) -/
  sandboxRes : Except String (List Template)
  /-- result of `bootstrap.FetchTemplates` -/
  catalogRes : Except String (List Template)
  /-- error returned by running the interactive form, if any -/
  formErr : Option String
  /-- the template URL the select prompt writes, when queued -/
  formURL : String
  /-- the application name the input prompt writes, when queued -/
  formApp : String
  clone : CloneOracle
  /-- error returned by `instantiateEnv` -/
  envErr : Option String
  installO : TaskOracle
  postO : TaskOracle

/-- The template-option resolution phase of `setupTemplate` (lines 170-191):
sandbox resolution needs a token and fetches the sandbox's child templates
(failing when there are none); otherwise the remote catalog is fetched. -/
def resolveOptions (a : SetupArgs) (o : SetupOracle) :
    Except (String × List SEvent) (List Template × List SEvent) :=
  if a.sandboxID != "" then
    match o.tokenRes with
    | .error e => .error (e, [SEvent.tokenRequested])
    | .ok _ =>
      if a.templateURL == "" then
        match o.sandboxRes with
        | .error e => .error (e, [SEvent.tokenRequested, SEvent.sandboxFetched])
        | .ok children =>
          if children.isEmpty then
            .error ("no child templates found for sandbox",
              [SEvent.tokenRequested, SEvent.sandboxFetched])
          else .ok (children, [SEvent.tokenRequested, SEvent.sandboxFetched])
      else .ok ([], [SEvent.tokenRequested])
  else
    match o.catalogRes with
    | .error e => .error (e, [SEvent.catalogFetched])
    | .ok ts => .ok (ts, [SEvent.catalogFetched])

/-- The template name/URL resolution step (lines 194-217): an explicit name is
looked up in the options (a miss is a resolution error); otherwise the
explicit URL (possibly empty, to be filled by the select prompt) stands. -/
def resolveURL (a : SetupArgs) (options : List Template) : Except String String :=
  if a.templateName != "" then
    match options.find? (fun t => t.name == a.templateName) with
    | some t => .ok t.url
    | none => .error ("template not found: " ++ a.templateName)
  else .ok a.templateURL

structure SetupResult where
  outcome : Outcome
  fs : FS
  events : List SEvent

/-- The tail of `setupTemplate` after template and application name are
settled (lines 250-266): staged clone, environment instantiation, then
either the install task or the post-create task.  A failing state aborts
the rest and surfaces its error; nothing here ever deletes the created
application directory. -/
def setupTemplateTail (a : SetupArgs) (o : SetupOracle) (fs0 : FS)
    (url appName : String) (evs : List SEvent) : SetupResult :=
  let c := cloneTemplate o.clone a.verbose fs0 url appName
  let evs := evs ++ [SEvent.cloneStarted]
  match c.err with
  | some e => ⟨.err e, c.fs, evs⟩
  | none =>
    let evs := evs ++ [SEvent.envInstantiated]
    match o.envErr with
    | some e => ⟨.err e, c.fs, evs⟩
    | none =>
      if a.install then
        ⟨doInstall o.installO, c.fs, evs ++ [SEvent.installStarted]⟩
      else
        ⟨doPostCreate o.postO, c.fs, evs ++ [SEvent.postCreateStarted]⟩

/-- Model of `setupTemplate`: the end-to-end `app create` action.  The conflict check
on template/template-url comes first; then option resolution, name/URL
resolution, app naming with the interactive form, the staged clone, the
environment instantiation, and the install or post-create task. -/
def setupTemplate (a : SetupArgs) (o : SetupOracle) (fs0 : FS) : SetupResult :=
  if a.templateName != "" && a.templateURL != "" then
    ⟨.err "only one of template or template-url can be specified", fs0, []⟩
  else
    match resolveOptions a o with
    | .error (e, evs) => ⟨.err e, fs0, evs⟩
    | .ok (templateOptions, evs) =>
      match resolveURL a templateOptions with
      | .error e => ⟨.err e, fs0, evs⟩
      | .ok url0 =>
        let needSelect := a.templateName == "" && a.templateURL == ""
        let needName := a.appArg == ""
        let appName0 := if needName then a.sandboxID else a.appArg
        if needSelect || needName then
          match o.formErr with
          | some e => ⟨.err e, fs0, evs ++ [SEvent.formShown]⟩
          | none =>
            setupTemplateTail a o fs0
              (if needSelect then o.formURL else url0)
              (if needName then o.formApp else appName0)
              (evs ++ [SEvent.formShown])
        else
          setupTemplateTail a o fs0 url0 appName0 evs

/-- C3: when both a template name and a template URL are supplied, the
resolution step fails with the configuration error at once — independent of
the catalog contents and before any network fetch, clone, or filesystem
change (the filesystem is returned unchanged and the event trace is empty). -/
theorem setupTemplate_conflicting_flags (a : SetupArgs) (o : SetupOracle) (fs0 : FS)
    (hn : a.templateName ≠ "") (hu : a.templateURL ≠ "") :
    setupTemplate a o fs0 =
      ⟨.err "only one of template or template-url can be specified", fs0, []⟩ := by
  have hc : (a.templateName != "" && a.templateURL != "") = true := by
    simp [hn, hu]
  unfold setupTemplate
  rw [if_pos hc]

/-- Witness for C3 at a concrete invocation with both flags set. -/
theorem setupTemplate_conflicting_flags_witness :
    setupTemplate ⟨"foo", "http://x", "", "myapp", false, false⟩
      ⟨.ok (), .ok [], .ok [], none, "", "", ⟨true, true, none, "", none⟩, none,
        ⟨none, none, none, none⟩, ⟨none, none, none, none⟩⟩ [] =
      ⟨.err "only one of template or template-url can be specified", [], []⟩ :=
  setupTemplate_conflicting_flags _ _ _ (by decide) (by decide)

/-- C4: with a sandbox id set and no template URL, the sandbox's child
templates are fetched (after the authenticated token step), and an empty
child-template list fails the operation with the resolution error before any
clone is attempted. -/
theorem setupTemplate_empty_sandbox (a : SetupArgs) (o : SetupOracle) (fs0 : FS)
    (hs : a.sandboxID ≠ "") (hu : a.templateURL = "")
    (ht : o.tokenRes = .ok ()) (hsb : o.sandboxRes = .ok []) :
    setupTemplate a o fs0 =
      ⟨.err "no child templates found for sandbox", fs0,
        [SEvent.tokenRequested, SEvent.sandboxFetched]⟩ ∧
    SEvent.cloneStarted ∉ (setupTemplate a o fs0).events := by
  have hc : (a.templateName != "" && a.templateURL != "") = false := by
    simp [hu]
  have hres : setupTemplate a o fs0 =
      ⟨.err "no child templates found for sandbox", fs0,
        [SEvent.tokenRequested, SEvent.sandboxFetched]⟩ := by
    unfold setupTemplate resolveOptions
    rw [if_neg (by simp [hc])]
    simp [hs, hu, ht, hsb]
  exact ⟨hres, by rw [hres]; simp⟩

/-- Witness for C4 at a concrete sandbox with no child templates. -/
theorem setupTemplate_empty_sandbox_witness :
    setupTemplate ⟨"", "", "sb1", "myapp", false, false⟩
      ⟨.ok (), .ok [], .ok [], none, "", "", ⟨true, true, none, "", none⟩, none,
        ⟨none, none, none, none⟩, ⟨none, none, none, none⟩⟩ [] =
      ⟨.err "no child templates found for sandbox", [],
        [SEvent.tokenRequested, SEvent.sandboxFetched]⟩ :=
  (setupTemplate_empty_sandbox _ _ _ (by decide) rfl rfl rfl).1

theorem resolveOptions_error_events {a : SetupArgs} {o : SetupOracle} {e : String}
    {evs : List SEvent} (h : resolveOptions a o = .error (e, evs)) :
    SEvent.cloneStarted ∉ evs := by
  unfold resolveOptions at h
  repeat' split at h
  all_goals
    first
    | (injection h with h'
       injection h' with he hevs
       subst hevs
       simp)
    | injection h

theorem resolveOptions_ok_events {a : SetupArgs} {o : SetupOracle} {ts : List Template}
    {evs : List SEvent} (h : resolveOptions a o = .ok (ts, evs)) :
    SEvent.cloneStarted ∉ evs := by
  unfold resolveOptions at h
  repeat' split at h
  all_goals
    first
    | (injection h with h'
       injection h' with he hevs
       subst hevs
       simp)
    | injection h

/-- C8: every bootstrap invocation either never starts a clone or proceeds to
the shared post-resolution tail with some resolved URL and application name
(whatever the resolution path — explicit URL, catalog name, sandbox, or the
interactive form); and for every invocation that reached that tail, if the
clone step succeeded and a later state fails (environment instantiation,
install, or post-create), the created application directory is still present
in the final filesystem — no rollback is performed — and the invocation's
outcome is exactly the failing state's result. -/
theorem setupTemplate_no_rollback (a : SetupArgs) (o : SetupOracle) (fs0 : FS) :
    (SEvent.cloneStarted ∉ (setupTemplate a o fs0).events ∨
      ∃ url appName evs,
        setupTemplate a o fs0 = setupTemplateTail a o fs0 url appName evs) ∧
    (∀ url appName evs,
      setupTemplate a o fs0 = setupTemplateTail a o fs0 url appName evs →
      o.clone.spinnerErr = none → o.clone.cloneErr = none →
      o.clone.createsDir = true →
      (∀ q ∈ fs0, [appName].isPrefixOf q = false) →
      [appName] ∈ (setupTemplate a o fs0).fs ∧
      (∀ e, o.envErr = some e → (setupTemplate a o fs0).outcome = .err e) ∧
      (o.envErr = none → a.install = true →
        (setupTemplate a o fs0).outcome = doInstall o.installO) ∧
      (o.envErr = none → a.install = false →
        (setupTemplate a o fs0).outcome = doPostCreate o.postO)) := by
  constructor
  · by_cases hc : (a.templateName != "" && a.templateURL != "") = true
    · left
      have : setupTemplate a o fs0 =
          ⟨.err "only one of template or template-url can be specified", fs0, []⟩ := by
        unfold setupTemplate
        rw [if_pos hc]
      rw [this]
      simp
    · cases hro : resolveOptions a o with
      | error pe =>
        obtain ⟨e, evs⟩ := pe
        left
        have : setupTemplate a o fs0 = ⟨.err e, fs0, evs⟩ := by
          unfold setupTemplate
          rw [if_neg hc, hro]
        rw [this]
        exact resolveOptions_error_events hro
      | ok pr =>
        obtain ⟨ts, evs⟩ := pr
        cases hru : resolveURL a ts with
        | error e =>
          left
          have : setupTemplate a o fs0 = ⟨.err e, fs0, evs⟩ := by
            unfold setupTemplate
            rw [if_neg hc, hro]
            simp [hru]
          rw [this]
          exact resolveOptions_ok_events hro
        | ok url0 =>
          by_cases hform :
              ((a.templateName == "" && a.templateURL == "") || a.appArg == "") = true
          · cases hfe : o.formErr with
            | some e =>
              left
              have : setupTemplate a o fs0 = ⟨.err e, fs0, evs ++ [SEvent.formShown]⟩ := by
                unfold setupTemplate
                rw [if_neg hc, hro]
                simp [hru, hform, hfe]
              rw [this]
              have hno := resolveOptions_ok_events hro
              simp [hno]
            | none =>
              right
              refine ⟨(if a.templateName == "" && a.templateURL == "" then o.formURL else url0),
                (if a.appArg == "" then o.formApp
                  else if a.appArg == "" then a.sandboxID else a.appArg),
                evs ++ [SEvent.formShown], ?_⟩
              unfold setupTemplate
              rw [if_neg hc, hro]
              simp [hru, hform, hfe]
          · right
            refine ⟨url0, (if a.appArg == "" then a.sandboxID else a.appArg), evs, ?_⟩
            unfold setupTemplate
            rw [if_neg hc, hro]
            simp [hru, hform]
  · intro url appName evs heq hs hcl hd hfresh
    obtain ⟨hcerr, hcmem⟩ :=
      cloneTemplate_success o.clone a.verbose fs0 url appName hs hcl hd hfresh
    rw [heq]
    unfold setupTemplateTail
    refine ⟨?_, ?_, ?_, ?_⟩
    · cases he : o.envErr <;> cases hi : a.install <;> simp [hcerr, he, hi, hcmem]
    · intro e he
      simp [hcerr, he]
    · intro he hi
      simp [hcerr, he, hi]
    · intro he hi
      simp [hcerr, he, hi]

/-- Witness for C8 on the sandbox-with-interactive-form path: the sandbox's
child template is chosen through the form, the clone of `myapp` succeeds, the
environment instantiation fails, and `myapp` stays on disk while `envboom`
is surfaced. -/
theorem setupTemplate_no_rollback_witness :
    ["myapp"] ∈ (setupTemplate ⟨"", "", "sb1", "", false, false⟩
      ⟨.ok (), .ok [⟨"t", "http://tpl"⟩], .ok [], none, "http://tpl", "myapp",
        ⟨true, true, none, "", none⟩, some "envboom",
        ⟨none, none, none, none⟩, ⟨none, none, none, none⟩⟩ []).fs ∧
    (setupTemplate ⟨"", "", "sb1", "", false, false⟩
      ⟨.ok (), .ok [⟨"t", "http://tpl"⟩], .ok [], none, "http://tpl", "myapp",
        ⟨true, true, none, "", none⟩, some "envboom",
        ⟨none, none, none, none⟩, ⟨none, none, none, none⟩⟩ []).outcome = .err "envboom" := by
  have h := (setupTemplate_no_rollback ⟨"", "", "sb1", "", false, false⟩
    ⟨.ok (), .ok [⟨"t", "http://tpl"⟩], .ok [], none, "http://tpl", "myapp",
      ⟨true, true, none, "", none⟩, some "envboom",
      ⟨none, none, none, none⟩, ⟨none, none, none, none⟩⟩ []).2
    "http://tpl" "myapp" [SEvent.tokenRequested, SEvent.sandboxFetched, SEvent.formShown]
    rfl rfl rfl rfl (by simp)
  exact ⟨h.1, h.2.1 "envboom" rfl⟩

/-! ## Project resolution (`requireProject`) -/

/-- What one recursion level of `requireProject` observes from its
collaborators: `loadProjectDetails`, `loadProjectConfig`, the configured
project list, the interactive selection, the confirmation prompt, and the
authentication detour (`initAuth` / `tryAuthIfNeeded`). -/
structure LevelEnv where
  /-- result of `loadProjectDetails`: `some p` on success -/
  details : Option ProjectConfig
  /-- error from `loadProjectConfig` -/
  configErr : Option String
  /-- the configured `cliConfig.Projects` list -/
  projects : List ProjectConfig
  /-- error from the selection form -/
  selectErr : Option String
  /-- the project chosen by the selection form -/
  selected : ProjectConfig
  /-- error from the confirmation prompt -/
  confirmErr : Option String
  /-- the user's answer to "Authenticate one now?" -/
  shouldAuth : Bool
  /-- error from `tryAuthIfNeeded` -/
  authErr : Option String
deriving DecidableEq

inductive RPResult
  | ok (p : ProjectConfig)
  | err (e : String)
  /-- the supplied environment trace ran out before the recursion ended -/
  | fuelOut
deriving DecidableEq

/-- Model of `requireProject`, one `LevelEnv` consumed per recursion level.  The code
re-invokes itself (`return requireProject(ctx, cmd)`) after a confirmed,
successful authentication detour, with no structural depth guard. -/
def requireProject : List LevelEnv → RPResult
  | [] => .fuelOut
  | l :: rest =>
    match l.details with
    | some p => .ok p
    | none =>
      match l.configErr with
      | some e => .err e
      | none =>
        if l.projects.length > 0 then
          match l.selectErr with
          | some e => .err e
          | none => .ok l.selected
        else
          match l.confirmErr with
          | some e => .err e
          | none =>
            if l.shouldAuth then
              match l.authErr with
              | some e => .err e
              | none => requireProject rest
            else .err "no project selected"

/-- The number of post-auth-detour retries (recursive re-entries) a
`requireProject` run performs over the given environment trace. -/
def rpRetries : List LevelEnv → Nat
  | [] => 0
  | l :: rest =>
    match l.details with
    | some _ => 0
    | none =>
      match l.configErr with
      | some _ => 0
      | none =>
        if l.projects.length > 0 then 0
        else
          match l.confirmErr with
          | some _ => 0
          | none =>
            if l.shouldAuth then
              match l.authErr with
              | some _ => 0
              | none => 1 + rpRetries rest
            else 0

/-- C7 counterexample: an environment in which project details keep failing
to load, no projects are configured, and the user keeps confirming a
successful authentication detour.  The run completes (third level resolves a
project) yet performs two retries — the recursion is not bounded at one
level. -/
theorem requireProject_two_retries_counterexample :
    requireProject
      [⟨none, none, [], none, ⟨"p", "k", "s", "u"⟩, none, true, none⟩,
       ⟨none, none, [], none, ⟨"p", "k", "s", "u"⟩, none, true, none⟩,
       ⟨some ⟨"p", "k", "s", "u"⟩, none, [], none, ⟨"p", "k", "s", "u"⟩, none, false, none⟩]
      = .ok ⟨"p", "k", "s", "u"⟩ ∧
    ¬ (rpRetries
      [⟨none, none, [], none, ⟨"p", "k", "s", "u"⟩, none, true, none⟩,
       ⟨none, none, [], none, ⟨"p", "k", "s", "u"⟩, none, true, none⟩,
       ⟨some ⟨"p", "k", "s", "u"⟩, none, [], none, ⟨"p", "k", "s", "u"⟩, none, false, none⟩]
      ≤ 1) := by
  decide

/-- C7 amended: when the authentication detour is taken and succeeds, and the
retry immediately resolves a project (the environment made one available),
`requireProject` retries exactly once and returns that project.  The bound of
one is environmental, not structural. -/
theorem requireProject_one_retry (l1 l2 : LevelEnv) (rest : List LevelEnv)
    (p : ProjectConfig)
    (h1d : l1.details = none) (h1c : l1.configErr = none) (h1p : l1.projects = [])
    (h1cf : l1.confirmErr = none) (h1a : l1.shouldAuth = true) (h1e : l1.authErr = none)
    (h2 : l2.details = some p) :
    requireProject (l1 :: l2 :: rest) = .ok p ∧ rpRetries (l1 :: l2 :: rest) = 1 := by
  constructor <;>
    simp [requireProject, rpRetries, h1d, h1c, h1p, h1cf, h1a, h1e, h2]

/-- Witness for the amended C7 at a concrete two-level environment. -/
theorem requireProject_one_retry_witness :
    requireProject
      [⟨none, none, [], none, ⟨"p", "k", "s", "u"⟩, none, true, none⟩,
       ⟨some ⟨"q", "k2", "s2", "u2"⟩, none, [], none, ⟨"p", "k", "s", "u"⟩, none, false, none⟩]
      = .ok ⟨"q", "k2", "s2", "u2"⟩ ∧
    rpRetries
      [⟨none, none, [], none, ⟨"p", "k", "s", "u"⟩, none, true, none⟩,
       ⟨some ⟨"q", "k2", "s2", "u2"⟩, none, [], none, ⟨"p", "k", "s", "u"⟩, none, false, none⟩]
      = 1 :=
  requireProject_one_retry
    ⟨none, none, [], none, ⟨"p", "k", "s", "u"⟩, none, true, none⟩
    ⟨some ⟨"q", "k2", "s2", "u2"⟩, none, [], none, ⟨"p", "k", "s", "u"⟩, none, false, none⟩
    [] ⟨"q", "k2", "s2", "u2"⟩ rfl rfl rfl rfl rfl rfl rfl

/-! ## Agent dispatch CRUD commands -/

/-- The flag/argument context of one dispatch subcommand invocation. -/
structure DispatchArgs where
  /-- positional arguments -/
  args : List String
  room : String
  newRoom : Bool
  agentName : String
  metadata : String
  verbose : Bool
  json : Bool
deriving DecidableEq

/-- Observable events of a dispatch subcommand, in order.  The three
`*Requested` events are the remote service requests. -/
inductive DEvent
  | helpShown
  | listRequested (room id : String)
  | createRequested (room agent metadata : String)
  | deleteRequested (room id : String)
deriving DecidableEq

/-- Collaborator outcomes for one dispatch subcommand invocation.
`helpErr` is the result of `cli.ShowSubcommandHelp`, which is nil unless
writing the help text itself fails. -/
structure DispatchOracle where
  helpErr : Option String
  /-- result of `utils.NewGuid("room-")` -/
  guid : String
  listErr : Option String
  createErr : Option String
  deleteErr : Option String
deriving DecidableEq

structure DispatchResult where
  err : Option String
  events : List DEvent
deriving DecidableEq

/-- Model of `cmd.Args().Get(i)`: empty string when the index is out of range. -/
def argOrEmpty (args : List String) (i : Nat) : String := args.getD i ""

/-- Model of `listDispatchAndPrint`: re-checks for an empty argument list (showing
help), then issues the remote list request and prints the result. -/
def listDispatchAndPrint (a : DispatchArgs) (o : DispatchOracle) (room id : String) :
    DispatchResult :=
  if a.args.length = 0 then ⟨o.helpErr, [DEvent.helpShown]⟩
  else
    match o.listErr with
    | some e => ⟨some e, [DEvent.listRequested room id]⟩
    | none => ⟨none, [DEvent.listRequested room id]⟩

def getAgentDispatch (a : DispatchArgs) (o : DispatchOracle) : DispatchResult :=
  if a.args.length = 0 then ⟨o.helpErr, [DEvent.helpShown]⟩
  else if argOrEmpty a.args 0 = "" then ⟨some "room name is required", []⟩
  else if argOrEmpty a.args 1 = "" then ⟨some "dispatch ID is required", []⟩
  else listDispatchAndPrint a o (argOrEmpty a.args 0) (argOrEmpty a.args 1)

def listAgentDispatches (a : DispatchArgs) (o : DispatchOracle) : DispatchResult :=
  if a.args.length = 0 then ⟨o.helpErr, [DEvent.helpShown]⟩
  else if argOrEmpty a.args 0 = "" then ⟨some "room name is required", []⟩
  else listDispatchAndPrint a o (argOrEmpty a.args 0) ""

def createAgentDispatch (a : DispatchArgs) (o : DispatchOracle) : DispatchResult :=
  let room := if a.newRoom then o.guid else a.room
  if room = "" then ⟨some "room or new-room is required", [DEvent.helpShown]⟩
  else if a.agentName = "" then ⟨some "agent-name is required", [DEvent.helpShown]⟩
  else
    match o.createErr with
    | some e => ⟨some e, [DEvent.createRequested room a.agentName a.metadata]⟩
    | none => ⟨none, [DEvent.createRequested room a.agentName a.metadata]⟩

def deleteAgentDispatch (a : DispatchArgs) (o : DispatchOracle) : DispatchResult :=
  if a.args.length = 0 then ⟨o.helpErr, [DEvent.helpShown]⟩
  else if argOrEmpty a.args 0 = "" then ⟨some "room name is required", []⟩
  else if argOrEmpty a.args 1 = "" then ⟨some "dispatch ID is required", []⟩
  else
    match o.deleteErr with
    | some e => ⟨some e, [DEvent.deleteRequested (argOrEmpty a.args 0) (argOrEmpty a.args 1)]⟩
    | none => ⟨none, [DEvent.deleteRequested (argOrEmpty a.args 0) (argOrEmpty a.args 1)]⟩

/-- C9 counterexample: `dispatch get room1` (missing dispatch ID) returns an
error without printing the subcommand help, and `dispatch get` with no
arguments prints the help yet returns nil rather than an error. -/
theorem getAgentDispatch_help_counterexample :
    ((getAgentDispatch ⟨["room1"], "", false, "", "", false, false⟩
        ⟨none, "", none, none, none⟩).err = some "dispatch ID is required" ∧
      DEvent.helpShown ∉ (getAgentDispatch ⟨["room1"], "", false, "", "", false, false⟩
        ⟨none, "", none, none, none⟩).events) ∧
    ((getAgentDispatch ⟨[], "", false, "", "", false, false⟩
        ⟨none, "", none, none, none⟩).err = none ∧
      DEvent.helpShown ∈ (getAgentDispatch ⟨[], "", false, "", "", false, false⟩
        ⟨none, "", none, none, none⟩).events) := by
  decide

/-- C9 amended: missing required inputs never reach the remote service, but
the help/error behavior splits by case — no positional arguments show help
and return the help call's result (nil when printing succeeds); a supplied
room with a missing dispatch ID returns an error without help; `create` with
an empty resolved room or agent name shows help and returns an error. -/
theorem dispatch_missing_required_args (a : DispatchArgs) (o : DispatchOracle) :
    (a.args = [] →
      getAgentDispatch a o = ⟨o.helpErr, [DEvent.helpShown]⟩ ∧
      listAgentDispatches a o = ⟨o.helpErr, [DEvent.helpShown]⟩ ∧
      deleteAgentDispatch a o = ⟨o.helpErr, [DEvent.helpShown]⟩) ∧
    (a.args ≠ [] → argOrEmpty a.args 0 ≠ "" → argOrEmpty a.args 1 = "" →
      getAgentDispatch a o = ⟨some "dispatch ID is required", []⟩ ∧
      deleteAgentDispatch a o = ⟨some "dispatch ID is required", []⟩) ∧
    ((if a.newRoom then o.guid else a.room) = "" →
      createAgentDispatch a o = ⟨some "room or new-room is required", [DEvent.helpShown]⟩) ∧
    ((if a.newRoom then o.guid else a.room) ≠ "" → a.agentName = "" →
      createAgentDispatch a o = ⟨some "agent-name is required", [DEvent.helpShown]⟩) := by
  refine ⟨?_, ?_, ?_, ?_⟩
  · intro h
    simp [getAgentDispatch, listAgentDispatches, deleteAgentDispatch, h]
  · intro hne h0 h1
    have hlen : ¬ a.args.length = 0 := by simpa using hne
    simp [getAgentDispatch, deleteAgentDispatch, hlen, h0, h1]
  · intro h
    simp [createAgentDispatch, h]
  · intro h ha
    simp only [createAgentDispatch]
    rw [if_neg h, if_pos ha]

/-- Witness for the amended C9: `dispatch get room1` and
`dispatch create --room room1` (no agent name) at concrete inputs. -/
theorem dispatch_missing_required_args_witness :
    getAgentDispatch ⟨["room1"], "", false, "", "", false, false⟩
      ⟨none, "", none, none, none⟩ = ⟨some "dispatch ID is required", []⟩ ∧
    createAgentDispatch ⟨[], "room1", false, "", "", false, false⟩
      ⟨none, "", none, none, none⟩ = ⟨some "agent-name is required", [DEvent.helpShown]⟩ :=
  ⟨((dispatch_missing_required_args ⟨["room1"], "", false, "", "", false, false⟩
      ⟨none, "", none, none, none⟩).2.1 (by decide) (by decide) rfl).1,
   (dispatch_missing_required_args ⟨[], "room1", false, "", "", false, false⟩
      ⟨none, "", none, none, none⟩).2.2.2 (by decide) rfl⟩

end LKCli
